import Mathlib

/-!
Shallow embedding of the GitHub-Obsidian MCP server
(`Github_Server.py`, `Obsidian_Server.py`).

Python strings are modelled by `String`, dictionaries by structures with
`Option`-typed fields (`none` = key absent or JSON null, with a two-level
`Option (Option _)` where the code distinguishes the two), exceptions by
`Except PyExn`, the local filesystem by a map from resolved path segments
to file contents, and the HTTP transport by an oracle value describing the
outcome of the single request an operation makes.
-/

namespace GitObsMCP

/-- Python exception classes that the embedded code can raise or catch:
`NameError` (reference to an unbound global), `requests.exceptions.HTTPError`
(raised by `raise_for_status`), `requests.exceptions.ConnectionError` and
`requests.exceptions.Timeout` (both subclasses of `RequestException`), and
`AttributeError` (calling `.get` on a non-dict value). -/
inductive PyExn where
  | nameError
  | httpError
  | connectionError
  | timeoutError
  | attributeError
deriving DecidableEq, Repr

/-- Outcome of the one HTTP request issued through `_make_github_request`:
either a parsed JSON body of type `α`, or the library exception the
`requests` call raises. -/
inductive Transport (α : Type) where
  | ok (body : α)
  | httpErr
  | connErr
  | timeoutErr
deriving DecidableEq, Repr

/-- `GitHubHelper._make_github_request` (Github_Server.py lines 28-46):
every `except` clause there re-raises, so the function either returns the
response or propagates the library exception unchanged. -/
def make_github_request {α : Type} (tr : Transport α) : Except PyExn α :=
  match tr with
  | .ok body => .ok body
  | .httpErr => .error .httpError
  | .connErr => .error .connectionError
  | .timeoutErr => .error .timeoutError

/-! ### String helpers mirroring Python / pathlib primitives -/

/-- Python `str.endswith`. -/
def strEndsWith (s post : String) : Bool := post.data.isSuffixOf s.data

/-- Python `str.lower` (sufficient for ASCII extensions such as ".MD"). -/
def pyLower (s : String) : String := String.mk (s.data.map Char.toLower)

/-- Python `str.__len__` (counts characters). -/
def strLen (s : String) : Nat := s.data.length

/-- Python `s[:n]`. -/
def strTake (s : String) (n : Nat) : String := String.mk (s.data.take n)

/-- `pathlib.PurePath.suffix` of a single path component: the substring from
the last dot, provided that dot is neither the first nor the last character
of the name; otherwise the empty string (so the dotfile name ".md" has
suffix ""). -/
def pySuffix (name : String) : String :=
  match name.data.reverse.findIdx? (fun c => c = '.') with
  | none => ""
  | some j =>
    let i := name.data.length - 1 - j
    if 0 < i ∧ i < name.data.length - 1 then String.mk (name.data.drop i) else ""

/-! ### Paths and the local filesystem -/

/-- An absolute filesystem path, as its list of segments. -/
abbrev FPath := List String

/-- Split a slash-separated relative path into segments (pathlib drops empty
components arising from repeated or trailing slashes). -/
def splitPath (p : String) : List String :=
  (p.data.splitOn '/').map String.mk |>.filter (fun s => s ≠ "")

/-- Lexical resolution of `.` and `..` segments against a base path, as
`Path.resolve` performs on the joined path (symlinks are outside the model). -/
def resolveSegs (base : List String) : List String → List String
  | [] => base
  | s :: rest =>
    if s = "." then resolveSegs base rest
    else if s = ".." then resolveSegs base.dropLast rest
    else resolveSegs (base ++ [s]) rest

/-- Last segment of a path ("" for the root), the component `pathlib`
computes `suffix` from. -/
def lastSeg : List String → String
  | [] => ""
  | [s] => s
  | _ :: rest => lastSeg rest

/-- `Path.suffix` of a full path. -/
def pathSuffix (p : FPath) : String := pySuffix (lastSeg p)

/-- The local filesystem: a map from resolved absolute paths to the contents
of the regular file stored there (`none` = no regular file at that path;
directories are implicit). -/
structure FS where
  files : FPath → Option String

def emptyFS : FS := ⟨fun _ => none⟩

/-- Writing a regular file (`Path.write_text`, or the net effect of an
append-mode open plus writes). -/
def fsWrite (fs : FS) (p : FPath) (c : String) : FS :=
  ⟨fun q => if q = p then some c else fs.files q⟩

def singleFS (p : FPath) (c : String) : FS := fsWrite emptyFS p c

/-! ### Obsidian_Server.py -/

/-- Module lines 10-14: `VAULT_PATH_VALUE = os.getenv("VAULT_PATH")` and
`if VAULT_PATH_VALUE: VAULT_PATH = Path(VAULT_PATH_VALUE)`.  The global
`VAULT_PATH` is bound only when the environment value is present and
non-empty; `none` here means the name is left unbound, so that any later
reference to it raises `NameError`. -/
def vaultRoot (env : Option String) : Option FPath :=
  match env with
  | some v => if v ≠ "" then some (splitPath v) else none
  | none => none

/-- `get_path` (lines 16-22) under a bound `VAULT_PATH`:
`(VAULT_PATH / note_path).resolve()`.  The `if not VAULT_PATH` guard on
line 17 can never fire when the global is bound, because a `Path` object is
always truthy. -/
def get_path (vp : FPath) (note_path : String) : FPath :=
  resolveSegs vp (splitPath note_path)

/-- `read_note` (lines 24-27): content when the resolved path has suffix
".md" (exact, case-sensitive) and is an existing regular file, else `None`. -/
def read_note (fs : FS) (full_path : FPath) : Option String :=
  if pathSuffix full_path = ".md" ∧ (fs.files full_path).isSome then
    fs.files full_path
  else none

/-- `append_note` (lines 29-41).  Requires the target to be an existing
regular file whose suffix lowercases to ".md"; then appends, writing a
separating newline first when `ensure_newline` is set and the current
content is non-empty and does not already end in a newline.  Returns the
success flag together with the resulting filesystem. -/
def append_note (fs : FS) (full_path : FPath) (content_to_append : String)
    (ensure_newline : Bool := true) : Bool × FS :=
  match fs.files full_path with
  | some current_content =>
    if pyLower (pathSuffix full_path) = ".md" then
      let sep : String :=
        if ensure_newline = true ∧ current_content ≠ "" ∧
            ¬ (strEndsWith current_content "\n" = true) then "\n" else ""
      (true, fsWrite fs full_path (current_content ++ sep ++ content_to_append))
    else (false, fs)
  | none => (false, fs)

/-- Lines 46-47 of `create_note`: append ".md" when the relative path does
not already end in it (case-sensitive `str.endswith`). -/
def withMdExt (relative_path : String) : String :=
  if strEndsWith relative_path ".md" = true then relative_path
  else relative_path ++ ".md"

/-- `create_note` (lines 43-58) under a bound `VAULT_PATH`: joins the
(extension-completed) relative path onto the root *without* resolving it,
creates parent directories (implicit here), and writes the content; the OS
resolves the path at open time, so the write lands at the resolved
location while the returned `Path` object keeps the literal segments.
Filesystem write failures (the `except` on line 56) are outside the model;
the `if not full_path` guard on line 49 is dead because paths are truthy. -/
def create_note (vp : FPath) (fs : FS) (relative_path content : String) :
    Option FPath × FS :=
  let rp := withMdExt relative_path
  (some (vp ++ splitPath rp), fsWrite fs (resolveSegs vp (splitPath rp)) content)

/-- Payloads `get_obsidian_note` (lines 61-90) can serialize.  The
`configError` payload of line 79 and the `invalidPath` payload of line 83
are unreachable: when `VAULT_PATH` is bound it is truthy, and `get_path`
then returns a truthy `Path`. -/
inductive ObsNoteResult where
  | configError
  | invalidPath (note_path : String)
  | content (path content : String)
  | errNotFound (note_path : String)
deriving DecidableEq, Repr

/-- Tool `get_obsidian_note` (lines 61-90).  Referencing the unbound global
`VAULT_PATH` on line 78 raises `NameError`. -/
def get_obsidian_note (env : Option String) (fs : FS) (note_path : String) :
    Except PyExn ObsNoteResult :=
  match vaultRoot env with
  | none => .error .nameError
  | some vp =>
    let full_path := get_path vp note_path
    match read_note fs full_path with
    | some c => .ok (.content note_path c)
    | none => .ok (.errNotFound note_path)

/-- Payloads of `create_obsidian_note` (lines 93-130): success carries the
path relative to the vault root; `errRelative` is the `ValueError` branch of
`relative_to`; `errFailed` the `create_note`-returned-None branch. -/
inductive CreateResult where
  | configError
  | created (relative : List String)
  | errRelative (created : List String)
  | errFailed (relative_path : String)
deriving DecidableEq, Repr

/-- Tool `create_obsidian_note` (lines 93-130).  Line 112's reference to the
unbound global raises `NameError`; otherwise `create_note` runs and the
created path is reported relative to the root. -/
def create_obsidian_note (env : Option String) (fs : FS)
    (relative_path content : String) : Except PyExn (CreateResult × FS) :=
  match vaultRoot env with
  | none => .error .nameError
  | some vp =>
    match create_note vp fs relative_path content with
    | (some create_path, fs1) =>
      if vp.isPrefixOf create_path then
        .ok (.created (create_path.drop vp.length), fs1)
      else
        .ok (.errRelative create_path, fs1)
    | (none, fs1) => .ok (.errFailed relative_path, fs1)

/-- Payloads of `append_obsidian_note` (lines 132-162). -/
inductive AppendResult where
  | configError
  | errNotFound (note_path : String)
  | appended (note_path : String)
  | errFailed (note_path : String)
deriving DecidableEq, Repr

/-- Tool `append_obsidian_note` (lines 132-162).  Line 150's reference to
the unbound global raises `NameError`; line 154 rejects targets that are
not existing regular files (`full_path_obj` itself is always truthy); then
`append_note` runs with its default `ensure_newline = True`. -/
def append_obsidian_note (env : Option String) (fs : FS)
    (note_path content_to_append : String) : Except PyExn (AppendResult × FS) :=
  match vaultRoot env with
  | none => .error .nameError
  | some vp =>
    let full_path_obj := get_path vp note_path
    if (fs.files full_path_obj).isSome = false then
      .ok (.errNotFound note_path, fs)
    else
      match append_note fs full_path_obj content_to_append true with
      | (true, fs1) => .ok (.appended note_path, fs1)
      | (false, fs1) => .ok (.errFailed note_path, fs1)

/-! ### Github_Server.py -/

/-- Python truthiness of an optional string (`os.getenv` result, a `.get`
on a JSON dict): truthy iff present and non-empty. -/
def truthyOpt (o : Option String) : Bool :=
  match o with
  | some s => s ≠ ""
  | none => false

/-- One pull-request item of the `pulls?state=closed...` response
(lines 57-71 read these keys).  `merged_by`, `user`, `head`, `base` are
optional sub-objects carrying the one field the code projects out of them
(`login`, `login`, `sha`, `ref`; outer `none` = key absent or null).
`body` is `Option (Option String)` because `pr.get("body", "")`
distinguishes an absent key (default "") from an explicit null (`None`). -/
structure PR where
  number : Option Nat
  title : Option String
  html_url : Option String
  merged_at : Option String
  merged_by : Option (Option String)
  user : Option (Option String)
  body : Option (Option String)
  head : Option (Option String)
  base : Option (Option String)
deriving DecidableEq, Repr

/-- The curated dictionary built on lines 61-71. -/
structure PRSummary where
  number : Option Nat
  title : Option String
  url : Option String
  merged_at : Option String
  merged_by : Option String
  author : Option String
  body_summary : Option String
  head_commit_sha : Option String
  base_branch : Option String
deriving DecidableEq, Repr

/-- `pr.get("merged_at")` truthiness on line 58. -/
def mergedTruthy (pr : PR) : Bool :=
  match pr.merged_at with
  | some s => s ≠ ""
  | none => false

/-- The projection on lines 61-71, field by field.  The body summary is
`body[:200] + "..."` when `pr.get("body")` is truthy and longer than 200
characters, else `pr.get("body", "")` (which is `""` for an absent key but
null for an explicit null). -/
def summarize (pr : PR) : PRSummary :=
  { number := pr.number
    title := pr.title
    url := pr.html_url
    merged_at := pr.merged_at
    merged_by := pr.merged_by.join
    author := pr.user.join
    body_summary :=
      match pr.body with
      | some (some s) =>
        if s ≠ "" ∧ 200 < strLen s then some (strTake s 200 ++ "...") else some s
      | some none => none
      | none => some ""
    head_commit_sha := pr.head.join
    base_branch := pr.base.join }

/-- Line 57-58 loop: first item whose `merged_at` is truthy, summarized. -/
def firstMergedSummary : List PR → Option PRSummary
  | [] => none
  | pr :: rest =>
    if mergedTruthy pr then some (summarize pr) else firstMergedSummary rest

/-- Result of `get_last_merged_pr_details` (lines 48-78): the summary dict,
`None` when no merged PR is among the fetched items, or the
`{"error_message": ...}` dict built by the `except Exception` handler
(which carries the formatted exception; the library exception's message
text lives outside this repository, so the exception value itself is kept). -/
inductive PrDetails where
  | found (s : PRSummary)
  | noneFound
  | errorMessage (e : PyExn)
deriving DecidableEq, Repr

/-- `GitHubHelper.get_last_merged_pr_details` (lines 48-78).  The whole body
sits in `try ... except Exception`, so every exception — including all
transport errors — becomes the error dictionary. -/
def get_last_merged_pr_details (tr : Transport (List PR)) : PrDetails :=
  match make_github_request tr with
  | .ok pull_requests =>
    match firstMergedSummary pull_requests with
    | some s => .found s
    | none => .noneFound
  | .error e => .errorMessage e

/-- One item of a directory listing, with the seven keys the loop on
lines 86-95 projects (the projection reads exactly these keys back out, so
the entry type doubles as the item type). -/
structure DirItem where
  name : Option String
  path : Option String
  type : Option String
  size : Option Nat
  sha : Option String
  html_url : Option String
  download_url : Option String
deriving DecidableEq, Repr

/-- Result of `get_dir_content`: the projected listing or the
`{"error_message": ...}` dict of line 98. -/
inductive DirContentResult where
  | entries (items : List DirItem)
  | errorMessage (msg : String)
deriving DecidableEq, Repr

/-- `GitHubHelper.get_dir_content` (lines 80-98).  Only
`requests.exceptions.HTTPError` is caught (line 97); a connection error or
timeout raised by the transport propagates to the caller. -/
def get_dir_content (tr : Transport (List DirItem)) (dir_path owner repo : String) :
    Except PyExn DirContentResult :=
  match make_github_request tr with
  | .ok items =>
    .ok (.entries (items.map (fun item =>
      { name := item.name
        path := item.path
        type := item.type
        size := item.size
        sha := item.sha
        html_url := item.html_url
        download_url := item.download_url })))
  | .error .httpError =>
    .ok (.errorMessage s!"Directory or path not found: {dir_path} in {owner}/{repo}")
  | .error e => .error e

/-- File metadata dict returned by the contents endpoint for a file path
(keys read on lines 107-134). -/
structure FileData where
  name : Option String
  path : Option String
  sha : Option String
  size : Option Nat
  content : Option String
  encoding : Option String
  html_url : Option String
  download_url : Option String
deriving DecidableEq, Repr

/-- The JSON body the contents endpoint answers with: a file object for a
file path, but a list for a directory path. -/
inductive FileJson where
  | fileObj (fd : FileData)
  | listObj (items : List DirItem)
deriving DecidableEq, Repr

/-- The record the tool serializes on success. -/
structure FileRecord where
  name : Option String
  path : Option String
  sha : Option String
  size : Option Nat
  encoding : Option String
  content : String
  html_url : Option String
  download_url : Option String
deriving DecidableEq, Repr

/-- Result of `get_file_content`: the record dict or the
`{"error_message": ...}` dict of line 137. -/
inductive FileContentResult where
  | record (r : FileRecord)
  | errorMessage (msg : String)
deriving DecidableEq, Repr

/-- Outcome of the secondary `requests.get(download_url)` fetch
(lines 119-121): the body text and declared charset, or any failure. -/
inductive DlOutcome where
  | fetched (text : String) (enc : Option String)
  | failed
deriving DecidableEq, Repr

/-- Lines 107-124: choose the decoded content and encoding label.
`b64` is the composite `base64.b64decode(...).decode('utf-8')` step
(`none` = either decode raises). -/
def decodeStep (fd : FileData) (b64 : String → Option String) (dl : DlOutcome) :
    String × Option String :=
  if truthyOpt fd.content = true ∧ fd.encoding = some "base64" then
    match b64 (fd.content.getD "") with
    | some txt => (txt, fd.encoding)
    | none => ("Error: Could not decode content.", some "error_decoding_base64")
  else if truthyOpt fd.download_url = true then
    match dl with
    | .fetched text enc =>
      (text, some (match enc with
        | some e => if e ≠ "" then e else "utf-8"
        | none => "utf-8"))
    | .failed => ("Error: Could not download content.", some "error_downloading")
  else
    ("", fd.encoding)

/-- `GitHubHelper.get_file_content` (lines 100-137).  Only `HTTPError` is
caught (line 136).  When the endpoint answers with a list (directory path),
`file_data.get("content")` on line 107 calls `.get` on a list and raises
`AttributeError`, which nothing catches. -/
def get_file_content (tr : Transport FileJson) (b64 : String → Option String)
    (dl : DlOutcome) (file_path owner repo : String) :
    Except PyExn FileContentResult :=
  match make_github_request tr with
  | .ok (.listObj _) => .error .attributeError
  | .ok (.fileObj file_data) =>
    let dec := decodeStep file_data b64 dl
    .ok (.record
      { name := file_data.name
        path := file_data.path
        sha := file_data.sha
        size := file_data.size
        encoding := dec.2
        content := dec.1
        html_url := file_data.html_url
        download_url := file_data.download_url })
  | .error .httpError =>
    .ok (.errorMessage s!"content not found: {file_path} in {owner}/{repo}")
  | .error e => .error e

/-- Payloads of tool `get_github_last_merged_pr` (lines 141-190). -/
inductive GprResult where
  | configError
  | summary (s : PRSummary)
  | noMerged (msg : String)
  | helperError (e : PyExn)
  | toolExecError (e : PyExn)
deriving DecidableEq, Repr

/-- Tool `get_github_last_merged_pr` (lines 141-190): token check first,
then the helper call inside `try ... except Exception` — the helper itself
never raises (it catches everything), so the tool always returns a payload. -/
def get_github_last_merged_pr (token : Option String) (tr : Transport (List PR))
    (owner repo : String) : Except PyExn GprResult :=
  if truthyOpt token = false then .ok .configError
  else
    .ok (match get_last_merged_pr_details tr with
      | .found s => .summary s
      | .noneFound => .noMerged s!"No recently merged PRs found for {owner}/{repo}."
      | .errorMessage e => .helperError e)

/-- Payloads of tool `get_repo_contents` (lines 193-227). -/
inductive RepoToolResult where
  | configError
  | payload (r : DirContentResult)
deriving DecidableEq, Repr

/-- Tool `get_repo_contents` (lines 193-227): token check, then
`get_dir_content` with *no* surrounding `try`, so whatever that helper
raises propagates out of the tool. -/
def get_repo_contents (token : Option String) (tr : Transport (List DirItem))
    (path owner repo : String) : Except PyExn RepoToolResult :=
  if truthyOpt token = false then .ok .configError
  else
    match get_dir_content tr path owner repo with
    | .ok r => .ok (.payload r)
    | .error e => .error e

/-- Payloads of tool `get_file_contents` (lines 230-266). -/
inductive FileToolResult where
  | configError
  | errorPayload (msg : String)
  | payload (r : FileRecord)
deriving DecidableEq, Repr

/-- Tool `get_file_contents` (lines 230-266): token check, then
`get_file_content` with *no* surrounding `try` (the `is None` branch on
line 261 is dead — the helper never returns `None`); an `error_message`
dict is serialized as-is, a record dict as the success payload. -/
def get_file_contents (token : Option String) (tr : Transport FileJson)
    (b64 : String → Option String) (dl : DlOutcome) (owner repo path : String) :
    Except PyExn FileToolResult :=
  if truthyOpt token = false then .ok .configError
  else
    match get_file_content tr b64 dl path owner repo with
    | .ok (.errorMessage m) => .ok (.errorPayload m)
    | .ok (.record r) => .ok (.payload r)
    | .error e => .error e

/-! ### Concrete values used by witnesses and counterexamples -/

/-- Closed-PR list for the C4 witness: the third item is the first whose
merge timestamp is non-null (the scenario of spec §8, bullet 1). -/
def c4prs : List PR :=
  [ { number := some 1, title := some "t1", html_url := some "u1",
      merged_at := none, merged_by := none, user := some (some "a1"),
      body := some (some "b1"), head := some (some "s1"), base := some (some "main") },
    { number := some 2, title := some "t2", html_url := some "u2",
      merged_at := none, merged_by := none, user := some (some "a2"),
      body := none, head := some (some "s2"), base := some (some "main") },
    { number := some 3, title := some "t3", html_url := some "u3",
      merged_at := some "2024-01-01T00:00:00Z", merged_by := some (some "m"),
      user := some (some "au"), body := some (some "hello"),
      head := some (some "sha3"), base := some (some "main") } ]

/-- File-metadata dict for the C5 witness: inline base64 payload present,
encoding tag "base64". -/
def c5fd : FileData :=
  { name := some "f.md", path := some "d/f.md", sha := some "abc",
    size := some 3, content := some "QUJD", encoding := some "base64",
    html_url := some "h", download_url := some "u" }

/-! ### Claim theorems -/

/-- Claim C1 (code bug): with the VAULT_PATH environment value absent, the
module-level `if VAULT_PATH_VALUE:` guard (Obsidian_Server.py lines 13-14)
leaves the global `VAULT_PATH` unbound, so each of the three vault tools
raises `NameError` at its `if not VAULT_PATH` check instead of returning
the configuration-error payload the claim (and the code's own dead branch
on lines 79, 113, 151) describes. -/
theorem c1_unset_vault_raises_name_error :
    ∀ (fs : FS) (p c : String),
      get_obsidian_note none fs p = .error .nameError
    ∧ create_obsidian_note none fs p c = .error .nameError
    ∧ append_obsidian_note none fs p c = .error .nameError :=
  fun _ _ _ => ⟨rfl, rfl, rfl⟩

/-- Claim C2, counterexample: with a token configured, a connection error
raised by the transport during `get_repo_contents` propagates out of the
tool unhandled (only `HTTPError` is caught on line 97), contradicting the
claim that no exception ever surfaces. -/
theorem c2_counterexample :
    get_repo_contents (some "t") Transport.connErr "p" "o" "r"
      = .error .connectionError := rfl

/-- Claim C3 (code bug): when the path addresses a directory, the contents
endpoint answers 200 with a JSON list; `file_data.get("content")`
(Github_Server.py line 107) then calls `.get` on a list, raising
`AttributeError`, which no handler catches — the tool raises instead of
returning the "not found" payload promised by the claim and by the tool's
own docstring. -/
theorem c3_directory_path_raises :
    ∀ (b64 : String → Option String) (dl : DlOutcome) (items : List DirItem)
      (owner repo path : String),
      get_file_contents (some "t") (.ok (.listObj items)) b64 dl owner repo path
        = .error .attributeError :=
  fun _ _ _ _ _ _ => rfl

/-- Claim C10: vault path resolution does not enforce containment.
Resolving "../x.md" against root `["v"]` lands outside the root, reading
through the tool returns the outside file's content, creating "../y"
writes the file outside the root, and appending through "../z.md" mutates
the outside file. -/
theorem c10_no_containment :
    get_path ["v"] "../x.md" = ["x.md"]
  ∧ (["v"].isPrefixOf (get_path ["v"] "../x.md")) = false
  ∧ get_obsidian_note (some "v") (singleFS ["x.md"] "secret") "../x.md"
      = .ok (.content "../x.md" "secret")
  ∧ (match create_obsidian_note (some "v") emptyFS "../y" "c" with
     | .ok (_, fs1) => fs1.files ["y.md"]
     | .error _ => none) = some "c"
  ∧ (match append_obsidian_note (some "v") (singleFS ["z.md"] "a") "../z.md" "b" with
     | .ok (_, fs1) => fs1.files ["z.md"]
     | .error _ => none) = some "a\nb" :=
  ⟨rfl, rfl, rfl, rfl, rfl⟩

/-- Claim C6, counterexample: for the relative path `""`, `create_note`
appends ".md" and creates the dotfile-named note ".md" in the vault root,
but `readNote` on the created path ".md" reports not-found, because the
pathlib suffix of the bare name ".md" is `""`, not ".md" — the round-trip
fails. -/
theorem c6_counterexample :
    create_obsidian_note (some "v") emptyFS "" "hello"
      = .ok (.created [".md"], fsWrite emptyFS ["v", ".md"] "hello")
  ∧ get_obsidian_note (some "v") (fsWrite emptyFS ["v", ".md"] "hello") ".md"
      = .ok (.errNotFound ".md") :=
  ⟨rfl, rfl⟩

/-- Claim C8, counterexample: appending through the tool to an existing
regular file whose extension is ".txt" fails with the generic
"Failed to append content" payload of line 162, not the "not found"
payload the claim names (the filesystem is still left unchanged). -/
theorem c8_counterexample :
    append_obsidian_note (some "v") (singleFS ["v", "x.txt"] "q") "x.txt" "b"
      = .ok (.errFailed "x.txt", singleFS ["v", "x.txt"] "q")
  ∧ append_obsidian_note (some "v") (singleFS ["v", "x.txt"] "q") "x.txt" "b"
      ≠ .ok (.errNotFound "x.txt", singleFS ["v", "x.txt"] "q") := by
  refine ⟨rfl, fun h => ?_⟩
  injection h with h1
  injection h1 with h2 h3
  cases h2

/-- Claim C5: when the file metadata carries a truthy inline payload and
the "base64" encoding tag but decoding (base64 or the subsequent UTF-8
step) fails, `get_file_content` still returns a success-shaped record with
encoding "error_decoding_base64" and the literal error marker as content —
it does not raise. -/
theorem c5_decode_failure_degrades (fd : FileData) (b64 : String → Option String)
    (dl : DlOutcome) (file_path owner repo : String) (s : String)
    (hc : fd.content = some s) (hne : s ≠ "") (henc : fd.encoding = some "base64")
    (hdec : b64 s = none) :
    get_file_content (.ok (.fileObj fd)) b64 dl file_path owner repo
      = .ok (.record
          { name := fd.name, path := fd.path, sha := fd.sha, size := fd.size,
            encoding := some "error_decoding_base64",
            content := "Error: Could not decode content.",
            html_url := fd.html_url, download_url := fd.download_url }) := by
  have hstep : decodeStep fd b64 dl
      = ("Error: Could not decode content.", some "error_decoding_base64") := by
    unfold decodeStep
    rw [hc, henc]
    simp [truthyOpt, hne, hdec]
  simp [get_file_content, make_github_request, hstep]

/-- Witness for C5 at a concrete metadata dict and an always-failing
decoder. -/
theorem c5_decode_failure_witness :
    (c5fd.content = some "QUJD" ∧ ("QUJD" : String) ≠ ""
      ∧ c5fd.encoding = some "base64" ∧ (fun (_ : String) => (none : Option String)) "QUJD" = none)
  ∧ get_file_content (.ok (.fileObj c5fd)) (fun _ => none) .failed "d/f.md" "o" "r"
      = .ok (.record
          { name := c5fd.name, path := c5fd.path, sha := c5fd.sha, size := c5fd.size,
            encoding := some "error_decoding_base64",
            content := "Error: Could not decode content.",
            html_url := c5fd.html_url, download_url := c5fd.download_url }) :=
  ⟨⟨rfl, by decide, rfl, rfl⟩,
    c5_decode_failure_degrades c5fd (fun _ => none) .failed "d/f.md" "o" "r" "QUJD"
      rfl (by decide) rfl rfl⟩

/-- Claim C7: on an existing note (suffix lowercasing to ".md"),
`append_note` with `ensure_newline = true` leaves the prior content as a
prefix and appends the new text, inserting exactly one newline between
them iff the prior content is non-empty and does not already end in a
newline. -/
theorem c7_append_inserts_single_newline (fs : FS) (p : FPath) (cur t : String)
    (hfile : fs.files p = some cur) (hsuf : pyLower (pathSuffix p) = ".md") :
    append_note fs p t true
      = (true, fsWrite fs p
          (cur ++ (if cur ≠ "" ∧ ¬ (strEndsWith cur "\n" = true) then "\n" else "") ++ t)) := by
  unfold append_note
  rw [hfile]
  simp [hsuf]

/-- Witness for C7: a note containing "a" (no trailing newline) appended
with "b" ends as exactly "a\nb". -/
theorem c7_append_witness :
    ((singleFS ["v", "n.md"] "a").files ["v", "n.md"] = some "a"
      ∧ pyLower (pathSuffix ["v", "n.md"]) = ".md")
  ∧ append_note (singleFS ["v", "n.md"] "a") ["v", "n.md"] "b" true
      = (true, fsWrite (singleFS ["v", "n.md"] "a") ["v", "n.md"]
          ("a" ++ (if ("a" : String) ≠ "" ∧ ¬ (strEndsWith "a" "\n" = true) then "\n" else "") ++ "b"))
  ∧ ("a" ++ (if ("a" : String) ≠ "" ∧ ¬ (strEndsWith "a" "\n" = true) then "\n" else "") ++ "b")
      = "a\nb"
  ∧ ("a\n" ++ (if ("a\n" : String) ≠ "" ∧ ¬ (strEndsWith "a\n" "\n" = true) then "\n" else "") ++ "b")
      = "a\nb" :=
  ⟨⟨rfl, by decide⟩,
    c7_append_inserts_single_newline (singleFS ["v", "n.md"] "a") ["v", "n.md"] "a" "b"
      rfl (by decide),
    by decide, by decide⟩

/-- Claim C9: the extension checks of `read_note` and `append_note` differ
in case sensitivity.  On an existing regular file whose resolved suffix is
".MD", the read tool reports not-found (exact comparison with ".md"), while
the append tool succeeds (`suffix.lower()` comparison). -/
theorem c9_extension_case_mismatch (env : Option String) (vp : FPath) (fs : FS)
    (note_path t cur : String)
    (henv : vaultRoot env = some vp)
    (hfile : fs.files (get_path vp note_path) = some cur)
    (hsuf : pathSuffix (get_path vp note_path) = ".MD") :
    get_obsidian_note env fs note_path = .ok (.errNotFound note_path)
  ∧ append_obsidian_note env fs note_path t
      = .ok (.appended note_path,
          fsWrite fs (get_path vp note_path)
            (cur ++ (if cur ≠ "" ∧ ¬ (strEndsWith cur "\n" = true) then "\n" else "") ++ t)) := by
  constructor
  · unfold get_obsidian_note read_note
    rw [henv]
    simp [hsuf]
  · unfold append_obsidian_note append_note
    rw [henv]
    simp [hfile, hsuf, pyLower]

/-- Witness for C9 on the concrete file "n.MD". -/
theorem c9_case_mismatch_witness :
    (vaultRoot (some "v") = some ["v"]
      ∧ (singleFS ["v", "n.MD"] "x").files (get_path ["v"] "n.MD") = some "x"
      ∧ pathSuffix (get_path ["v"] "n.MD") = ".MD")
  ∧ get_obsidian_note (some "v") (singleFS ["v", "n.MD"] "x") "n.MD"
      = .ok (.errNotFound "n.MD")
  ∧ append_obsidian_note (some "v") (singleFS ["v", "n.MD"] "x") "n.MD" "y"
      = .ok (.appended "n.MD",
          fsWrite (singleFS ["v", "n.MD"] "x") (get_path ["v"] "n.MD")
            ("x" ++ (if ("x" : String) ≠ "" ∧ ¬ (strEndsWith "x" "\n" = true) then "\n" else "") ++ "y")) := by
  refine ⟨⟨by decide, by decide, by decide⟩, ?_⟩
  exact c9_extension_case_mismatch (some "v") ["v"] (singleFS ["v", "n.MD"] "x")
    "n.MD" "y" "x" (by decide) (by decide) (by decide)

/-- The scan on lines 57-58 returns the summary of the first list item whose
`merged_at` is truthy; when no truthy timestamp is the empty string,
truthiness coincides with non-nullity. -/
theorem firstMergedSummary_eq_find (prs : List PR)
    (h : ∀ pr ∈ prs, pr.merged_at ≠ some "") :
    firstMergedSummary prs
      = (prs.find? (fun pr => pr.merged_at.isSome)).map summarize := by
  induction prs with
  | nil => rfl
  | cons pr rest ih =>
    have hpr : pr.merged_at ≠ some "" := h pr (by simp)
    have hrest : ∀ q ∈ rest, q.merged_at ≠ some "" := fun q hq => h q (by simp [hq])
    unfold firstMergedSummary
    cases hm : pr.merged_at with
    | none =>
      have ht : mergedTruthy pr = false := by simp [mergedTruthy, hm]
      rw [ht, List.find?_cons_of_neg _ (by simp [hm]), if_neg (by simp)]
      exact ih hrest
    | some s =>
      have hs : s ≠ "" := fun e => hpr (by rw [hm, e])
      have ht : mergedTruthy pr = true := by simp [mergedTruthy, hm, hs]
      rw [ht, List.find?_cons_of_pos _ (by simp [hm]), if_pos rfl]
      rfl

/-- Claim C4: over any closed-PR list, `get_last_merged_pr_details` returns
the summary of the first item whose merge timestamp is non-null, with every
projected field taken from that item, the body truncated to exactly its
first 200 characters plus "..." when longer than 200, else kept whole (the
empty string when the key is absent, null when the body is null); with no
merged item it reports none found. -/
theorem c4_first_merged_projection (prs : List PR)
    (h : ∀ pr ∈ prs, pr.merged_at ≠ some "") :
    get_last_merged_pr_details (.ok prs)
      = match prs.find? (fun pr => pr.merged_at.isSome) with
        | some pr => .found
            { number := pr.number, title := pr.title, url := pr.html_url,
              merged_at := pr.merged_at, merged_by := pr.merged_by.join,
              author := pr.user.join,
              body_summary :=
                match pr.body with
                | some (some s) =>
                    some (if 200 < strLen s then strTake s 200 ++ "..." else s)
                | some none => none
                | none => some "",
              head_commit_sha := pr.head.join, base_branch := pr.base.join }
        | none => .noneFound := by
  have hmain : get_last_merged_pr_details (.ok prs)
      = match firstMergedSummary prs with
        | some s => .found s
        | none => .noneFound := rfl
  rw [hmain, firstMergedSummary_eq_find prs h]
  cases hf : prs.find? (fun pr => pr.merged_at.isSome) with
  | none => rfl
  | some pr =>
    have hbody : (match pr.body with
        | some (some s) =>
            if s ≠ "" ∧ 200 < strLen s then some (strTake s 200 ++ "...") else some s
        | some none => none
        | none => some "")
        = (match pr.body with
        | some (some s) => some (if 200 < strLen s then strTake s 200 ++ "..." else s)
        | some none => none
        | none => some "") := by
      cases hb : pr.body with
      | none => rfl
      | some b =>
        cases b with
        | none => rfl
        | some s =>
          by_cases hl : 200 < strLen s
          · have hs : s ≠ "" := fun e => by rw [e] at hl; exact absurd hl (by decide)
            simp [hl, hs]
          · simp [hl]
    simp only [Option.map_some']
    unfold summarize
    rw [hbody]

/-- Witness for C4: in a three-item closed list whose third item is the
first with a non-null merge timestamp, the returned summary is exactly that
third item's projection. -/
theorem c4_projection_witness :
    (∀ pr ∈ c4prs, pr.merged_at ≠ some "")
  ∧ get_last_merged_pr_details (.ok c4prs)
      = .found { number := some 3, title := some "t3", url := some "u3",
                 merged_at := some "2024-01-01T00:00:00Z", merged_by := some "m",
                 author := some "au", body_summary := some "hello",
                 head_commit_sha := some "sha3", base_branch := some "main" } := by
  refine ⟨by decide, ?_⟩
  rw [c4_first_merged_projection c4prs (by decide)]
  rfl

theorem lastSeg_append (base : List String) (x : String) :
    lastSeg (base ++ [x]) = x := by
  induction base with
  | nil => rfl
  | cons a t ih =>
    cases t with
    | nil => rfl
    | cons b t2 => exact ih

/-- Resolving `.`/`..` segments does not change the last segment when the
last segment is itself an ordinary name. -/
theorem resolveSegs_lastSeg (segs : List String) : ∀ base : List String,
    segs ≠ [] → lastSeg segs ≠ "." → lastSeg segs ≠ ".." →
    lastSeg (resolveSegs base segs) = lastSeg segs := by
  induction segs with
  | nil => intro base hne _ _; exact absurd rfl hne
  | cons x rest ih =>
    intro base _ h1 h2
    cases rest with
    | nil =>
      unfold resolveSegs
      rw [if_neg (show x ≠ "." from h1), if_neg (show x ≠ ".." from h2)]
      exact lastSeg_append base x
    | cons y t =>
      unfold resolveSegs
      by_cases hx : x = "."
      · rw [if_pos hx]; exact ih base (by simp) h1 h2
      · rw [if_neg hx]
        by_cases hx2 : x = ".."
        · rw [if_pos hx2]; exact ih base.dropLast (by simp) h1 h2
        · rw [if_neg hx2]; exact ih (base ++ [x]) (by simp) h1 h2

theorem isPrefixOf_append_self (l t : List String) :
    l.isPrefixOf (l ++ t) = true := by
  induction l with
  | nil => simp [List.isPrefixOf]
  | cons a l2 ih => simp [List.isPrefixOf, ih]

theorem drop_length_append_self (l t : List String) :
    (l ++ t).drop l.length = t := by
  induction l with
  | nil => rfl
  | cons a l2 ih => simp [ih]

/-- Claim C6 as amended: with the vault configured, for every relative path
p whose final component (after the conditional ".md" completion) has
pathlib suffix ".md" — i.e. is not a bare dotfile name such as ".md"
itself — creating then reading the created path returns exactly the
written content, and a path already ending in ".md" is not given a second
extension. -/
theorem c6_create_read_roundtrip (env : Option String) (vp : FPath)
    (p c : String) (fs : FS)
    (henv : vaultRoot env = some vp)
    (hsuf : pySuffix (lastSeg (splitPath (withMdExt p))) = ".md") :
    (strEndsWith p ".md" = true → withMdExt p = p)
  ∧ create_obsidian_note env fs p c
      = .ok (.created (splitPath (withMdExt p)),
             fsWrite fs (resolveSegs vp (splitPath (withMdExt p))) c)
  ∧ get_obsidian_note env
        (fsWrite fs (resolveSegs vp (splitPath (withMdExt p))) c)
        (withMdExt p)
      = .ok (.content (withMdExt p) c) := by
  have hs1 : lastSeg (splitPath (withMdExt p)) ≠ "." := by
    intro e; rw [e] at hsuf; exact absurd hsuf (by decide)
  have hs2 : lastSeg (splitPath (withMdExt p)) ≠ ".." := by
    intro e; rw [e] at hsuf; exact absurd hsuf (by decide)
  have hne : splitPath (withMdExt p) ≠ [] := by
    intro e; rw [e] at hsuf; exact absurd hsuf (by decide)
  refine ⟨fun hp => by unfold withMdExt; rw [if_pos hp], ?_, ?_⟩
  · unfold create_obsidian_note create_note
    rw [henv]
    simp [isPrefixOf_append_self, drop_length_append_self]
  · have hps : pathSuffix (resolveSegs vp (splitPath (withMdExt p))) = ".md" := by
      unfold pathSuffix
      rw [resolveSegs_lastSeg _ _ hne hs1 hs2]
      exact hsuf
    unfold get_obsidian_note get_path read_note
    rw [henv]
    simp [hps, fsWrite]

/-- Witness for C6 on the path "y.md" (already carrying the extension) and
content "hello". -/
theorem c6_roundtrip_witness :
    (vaultRoot (some "v") = some ["v"]
      ∧ pySuffix (lastSeg (splitPath (withMdExt "y.md"))) = ".md")
  ∧ ((strEndsWith "y.md" ".md" = true → withMdExt "y.md" = "y.md")
      ∧ create_obsidian_note (some "v") emptyFS "y.md" "hello"
          = .ok (.created (splitPath (withMdExt "y.md")),
                 fsWrite emptyFS (resolveSegs ["v"] (splitPath (withMdExt "y.md"))) "hello")
      ∧ get_obsidian_note (some "v")
            (fsWrite emptyFS (resolveSegs ["v"] (splitPath (withMdExt "y.md"))) "hello")
            (withMdExt "y.md")
          = .ok (.content (withMdExt "y.md") "hello")) :=
  ⟨⟨by decide, by decide⟩,
    c6_create_read_roundtrip (some "v") ["v"] "y.md" "hello" emptyFS (by decide) (by decide)⟩

/-- Claim C8 as amended: with the vault configured, a target that does not
exist as a regular file yields the "not found" error payload; an existing
regular file whose extension does not lowercase to ".md" yields the
generic "failed to append" error payload instead of the "not found" one;
in both failure cases the filesystem is returned unchanged — in particular
no file is created at the target path. -/
theorem c8_append_failure_modes (env : Option String) (vp : FPath) (fs : FS)
    (note_path t : String) (henv : vaultRoot env = some vp) :
    (fs.files (get_path vp note_path) = none →
      append_obsidian_note env fs note_path t = .ok (.errNotFound note_path, fs))
  ∧ (∀ cur, fs.files (get_path vp note_path) = some cur →
      pyLower (pathSuffix (get_path vp note_path)) ≠ ".md" →
      append_obsidian_note env fs note_path t = .ok (.errFailed note_path, fs)) := by
  constructor
  · intro hnone
    unfold append_obsidian_note
    rw [henv]
    simp [hnone]
  · intro cur hsome hsuf
    unfold append_obsidian_note append_note
    rw [henv]
    simp [hsome, hsuf]

/-- Witness for C8: a non-existent target is reported not found with the
filesystem unchanged, and the existing non-".md" file "x.txt" is reported
with the generic failure, also unchanged. -/
theorem c8_failure_modes_witness :
    (vaultRoot (some "v") = some ["v"]
      ∧ emptyFS.files (get_path ["v"] "nope.md") = none
      ∧ (singleFS ["v", "x.txt"] "q").files (get_path ["v"] "x.txt") = some "q"
      ∧ pyLower (pathSuffix (get_path ["v"] "x.txt")) ≠ ".md")
  ∧ append_obsidian_note (some "v") emptyFS "nope.md" "t"
      = .ok (.errNotFound "nope.md", emptyFS)
  ∧ append_obsidian_note (some "v") (singleFS ["v", "x.txt"] "q") "x.txt" "t"
      = .ok (.errFailed "x.txt", singleFS ["v", "x.txt"] "q") :=
  ⟨⟨by decide, by decide, by decide, by decide⟩,
    (c8_append_failure_modes (some "v") ["v"] emptyFS "nope.md" "t" (by decide)).1
      (by decide),
    (c8_append_failure_modes (some "v") ["v"] (singleFS ["v", "x.txt"] "q") "x.txt" "t"
      (by decide)).2 "q" (by decide) (by decide)⟩

/-- Claim C2 as amended: with a token configured,
`get_github_last_merged_pr` converts every transport outcome — success,
HTTP error, connection error, timeout — into a structured payload and
never raises; `get_repo_contents` and `get_file_contents` convert HTTP
errors into the structured "not found" payloads naming the path, but let
connection errors and timeouts raised by the transport propagate out of
the tool unhandled. -/
theorem c2_boundary_behavior (token : Option String) (htok : truthyOpt token = true)
    (path owner repo : String) (b64 : String → Option String) (dl : DlOutcome) :
    (∀ tr : Transport (List PR), ∃ r,
        get_github_last_merged_pr token tr owner repo = .ok r)
  ∧ get_repo_contents token .httpErr path owner repo
      = .ok (.payload (.errorMessage
          s!"Directory or path not found: {path} in {owner}/{repo}"))
  ∧ get_repo_contents token .connErr path owner repo = .error .connectionError
  ∧ get_repo_contents token .timeoutErr path owner repo = .error .timeoutError
  ∧ get_file_contents token .httpErr b64 dl owner repo path
      = .ok (.errorPayload s!"content not found: {path} in {owner}/{repo}")
  ∧ get_file_contents token .connErr b64 dl owner repo path = .error .connectionError
  ∧ get_file_contents token .timeoutErr b64 dl owner repo path
      = .error .timeoutError := by
  constructor
  · intro tr
    unfold get_github_last_merged_pr
    rw [if_neg (by simp [htok])]
    exact ⟨_, rfl⟩
  · refine ⟨?_, ?_, ?_, ?_, ?_, ?_⟩ <;>
      simp [get_repo_contents, get_file_contents, get_dir_content,
        get_file_content, make_github_request, htok]

/-- Witness for C2 at a concrete token and arguments. -/
theorem c2_boundary_witness :
    truthyOpt (some "t") = true
  ∧ ((∀ tr : Transport (List PR), ∃ r,
        get_github_last_merged_pr (some "t") tr "o" "r" = .ok r)
      ∧ get_repo_contents (some "t") .httpErr "p" "o" "r"
          = .ok (.payload (.errorMessage "Directory or path not found: p in o/r"))
      ∧ get_repo_contents (some "t") .connErr "p" "o" "r" = .error .connectionError
      ∧ get_repo_contents (some "t") .timeoutErr "p" "o" "r" = .error .timeoutError
      ∧ get_file_contents (some "t") .httpErr (fun _ => none) .failed "o" "r" "p"
          = .ok (.errorPayload "content not found: p in o/r")
      ∧ get_file_contents (some "t") .connErr (fun _ => none) .failed "o" "r" "p"
          = .error .connectionError
      ∧ get_file_contents (some "t") .timeoutErr (fun _ => none) .failed "o" "r" "p"
          = .error .timeoutError) :=
  ⟨by decide,
    c2_boundary_behavior (some "t") (by decide) "p" "o" "r" (fun _ => none) .failed⟩

end GitObsMCP
